import Mathlib

/-!
Shallow embedding of the external_sync_service repository (Python) in Lean 4.

Conventions used throughout this development:
* Python strings are Lean `String`s; Python `str.split()` (whitespace split
  dropping empty pieces), `str.strip()` and f-string concatenation are embedded
  by the helper functions below.
* Python `datetime` values are opaque: they are carried through the pipeline
  unchanged, so they are embedded as `Nat` tags.
* Python dictionaries that are used purely as finite maps (the routing table,
  the adapter registry) are embedded as functions `String -> Option _`;
  dictionaries whose literal key structure matters (events, dispatch outcome
  dicts) are embedded as association lists, so that presence or absence of a
  key is observable.
* Fallible Python code (pydantic validation errors, raised ValueError) is
  embedded with `Except String _`.
* Wall-clock reads (`datetime.now()`) become explicit `now : Nat` parameters.
-/

/-- Worker for `pySplit`: walk the characters, collecting the current token
in reverse in `acc` and emitting it at each whitespace run. -/
def pySplitChars : List Char → List Char → List String
  | [], [] => []
  | [], acc => [String.mk acc.reverse]
  | ch :: cs, acc =>
      if ch.isWhitespace then
        match acc with
        | [] => pySplitChars cs []
        | _ :: _ => String.mk acc.reverse :: pySplitChars cs []
      else
        pySplitChars cs (ch :: acc)

/-- Python `str.split()` with no separator: split on runs of whitespace,
dropping empty pieces. -/
def pySplit (s : String) : List String :=
  pySplitChars s.data []

/-- Python `str.strip()` with no argument: drop leading and trailing
whitespace. -/
def pyStrip (s : String) : String :=
  String.mk (((s.data.dropWhile Char.isWhitespace).reverse.dropWhile
    Char.isWhitespace).reverse)

/-- app/services/adapters/base_adapter.py, BaseAdapter.extract_first_name:
`parts = full_name.split(); return parts[0] if parts else ""`. -/
def extract_first_name (full_name : String) : String :=
  match pySplit full_name with
  | [] => ""
  | p :: _ => p

/-- app/services/adapters/base_adapter.py, BaseAdapter.extract_last_name:
`parts = full_name.split(); return " ".join(parts[1:]) if len(parts) > 1 else ""`. -/
def extract_last_name (full_name : String) : String :=
  let parts := pySplit full_name
  if parts.length > 1 then String.intercalate " " (parts.drop 1) else ""

/-- Does the second character list start with the first? -/
def charsStartWith : List Char → List Char → Bool
  | [], _ => true
  | _ :: _, [] => false
  | p :: ps, ch :: cs => p = ch && charsStartWith ps cs

/-- Does the second character list contain the first as a contiguous run? -/
def charsContain (sub : List Char) : List Char → Bool
  | [] => sub.isEmpty
  | ch :: cs => charsStartWith sub (ch :: cs) || charsContain sub cs

/-- Python `sub in s` on strings: contiguous substring test (true for the
empty pattern). -/
def pyStrIn (sub s : String) : Bool :=
  charsContain sub.data s.data

/-- Python `s.split(sep)` for a single-character separator: split at every
occurrence, keeping empty pieces. -/
def splitOnChar (sep : Char) : List Char → List (List Char)
  | [] => [[]]
  | ch :: cs =>
      if ch = sep then [] :: splitOnChar sep cs
      else
        match splitOnChar sep cs with
        | [] => [[ch]]
        | t :: ts => (ch :: t) :: ts

/-- Python `str.title()` used by `extract_company_from_email`: uppercase every
letter that follows a non-letter, lowercase the other letters. -/
def pyTitle (s : String) : String :=
  (s.toList.foldl
    (fun (acc : List Char × Bool) c =>
      let out := if acc.2 then c.toUpper else c.toLower
      (acc.1 ++ [out], ¬ c.isAlpha))
    ([], true)).1 |> String.mk

/-- app/services/adapters/base_adapter.py, BaseAdapter.extract_company_from_email:
take the e-mail domain, keep the part before the first dot, title-case it. -/
def extract_company_from_email (email : String) : String :=
  if email.data.contains '@' then
    let domain := ((splitOnChar '@' email.data).drop 1).headD []
    pyTitle (String.mk ((splitOnChar '.' domain).headD []))
  else ""

/-- Number of decimal digit characters of a string; embeds
`len(''.join(filter(str.isdigit, v)))` from the pydantic phone validators. -/
def digitCount (s : String) : Nat :=
  (s.toList.filter Char.isDigit).length

/-- Python truthiness-based `a or b` on an optional string
(`internal_contact.company or fallback`): `None` and `""` are falsy. -/
def pyOrStr (a : Option String) (b : String) : String :=
  match a with
  | none => b
  | some s => if s = "" then b else s

/-- The e-mail shape accepted by pydantic `EmailStr`, modelled as: a non-empty
local part, an `@`, and a non-empty domain containing a dot.  The same
predicate guards the internal and both vendor schemas, exactly as the same
`EmailStr` type does in the source. -/
def isValidEmail (s : String) : Bool :=
  match splitOnChar '@' s.data with
  | [local_part, domain] =>
      ¬ local_part.isEmpty && ¬ domain.isEmpty && domain.contains '.' &&
        domain.head? ≠ some '.' && domain.getLast? ≠ some '.'
  | _ => false

/-! ## HTTP dispatch (app/services/api_dispatcher_service.py) -/

/-- One HTTP POST attempt as observed by `_post_with_retries`: either a status
code with a body, or a raised transport/parse exception. -/
inductive HttpResp where
  | status (code : Nat) (text : String)
  | exn (msg : String)
deriving DecidableEq

/-- A JSON-like value stored in the outcome dictionaries that
`_post_with_retries` returns. -/
inductive JValue where
  | bool (b : Bool)
  | nat (n : Nat)
  | str (s : String)
deriving DecidableEq

/-- The outcome dictionaries of `_post_with_retries` are string-keyed literal
dicts; they are embedded as association lists so that the exact key set is
part of the model. -/
def DispatchOutcome := List (String × JValue)

instance : DecidableEq DispatchOutcome := by
  unfold DispatchOutcome
  infer_instance

/-- `url.split("/")[-2]`, the external-system segment the success outcome
reports (the endpoint URLs end in `/<system>/contact`). -/
def urlSecondLast (url : String) : String :=
  (((url.splitOn "/").dropLast).getLast?).getD ""

/-- The literal `{"success": True, "external_system": url.split("/")[-2],
"response": resp.json()}` dict. -/
def successOutcome (url body : String) : DispatchOutcome :=
  [("success", JValue.bool true),
   ("external_system", JValue.str (urlSecondLast url)),
   ("response", JValue.str body)]

/-- The literal `{"success": False, "error": resp.text, "status_code":
resp.status_code}` dict for a non-200, non-429 status. -/
def fatalOutcome (code : Nat) (text : String) : DispatchOutcome :=
  [("success", JValue.bool false),
   ("error", JValue.str text),
   ("status_code", JValue.nat code)]

/-- The literal `{"success": False, "error": "Max retries exceeded",
"status_code": 429}` dict returned when the while loop exits. -/
def retriesExhaustedOutcome : DispatchOutcome :=
  [("success", JValue.bool false),
   ("error", JValue.str "Max retries exceeded"),
   ("status_code", JValue.nat 429)]

/-- The retry loop of `APIDispatcherService._post_with_retries`.  `resp i` is
the response to the POST made with `attempt == i`; `fuel` is the number of
loop iterations still allowed (`max_retries + 1 - attempt`, so the Python
condition `attempt <= self.max_retries` is `fuel > 0`).  The second component
counts the POSTs actually performed.  Backoff sleeps change no observable
state and are not modelled. -/
def postLoop (url : String) (resp : Nat → HttpResp) : Nat → Nat → DispatchOutcome × Nat
  | 0, _ => (retriesExhaustedOutcome, 0)
  | fuel + 1, attempt =>
    match resp attempt with
    | HttpResp.status 200 body => (successOutcome url body, 1)
    | HttpResp.status 429 _ =>
        let r := postLoop url resp fuel (attempt + 1)
        (r.1, r.2 + 1)
    | HttpResp.status code text => (fatalOutcome code text, 1)
    | HttpResp.exn _ =>
        let r := postLoop url resp fuel (attempt + 1)
        (r.1, r.2 + 1)

/-- app/services/api_dispatcher_service.py, `_post_with_retries`: run the loop
starting from `attempt = 0`; it performs at most `max_retries + 1` POSTs. -/
def post_with_retries (url : String) (resp : Nat → HttpResp) (max_retries : Nat) :
    DispatchOutcome × Nat :=
  postLoop url resp (max_retries + 1) 0

/-- A response is an HTTP 429 rate-limit response. -/
def is429 : HttpResp → Bool
  | HttpResp.status 429 _ => true
  | _ => false

/-! ## Canonical contact (app/models/internal_schema.py) -/

/-- The closed set of contact categories
(`Literal["lead", "customer", "prospect", "vendor", "partner", "employee"]`). -/
def contactTypeLiterals : List String :=
  ["lead", "customer", "prospect", "vendor", "partner", "employee"]

/-- app/models/internal_schema.py, InternalContact.  Timestamps are opaque
`Nat` tags; the stored `name` is the stripped name the pydantic validator
returns. -/
structure InternalContact where
  id : String
  name : String
  email : String
  phone : String
  contact : String
  created_at : Nat
  updated_at : Nat
  company : Option String
  title : Option String
  department : Option String
  address : Option String
  notes : Option String
deriving DecidableEq

/-- Length bound check for an optional pydantic string field
(`max_length` applies only when the value is not None). -/
def optLenLe (o : Option String) (n : Nat) : Bool :=
  match o with
  | none => true
  | some s => s.length ≤ n

/-- The pydantic validation run by `InternalContact(...)`: field constraints
(name 1..255, phone 10..20 with at least 10 digits, `EmailStr`, the category
literal, optional-field bounds) plus the custom validators, which reject a
blank name. -/
def InternalContact.checks (name email phone contact : String)
    (company title department address notes : Option String) : Bool :=
  1 ≤ name.length && name.length ≤ 255 && pyStrip name ≠ "" &&
  isValidEmail email &&
  10 ≤ phone.length && phone.length ≤ 20 && 10 ≤ digitCount phone &&
  contactTypeLiterals.contains contact &&
  optLenLe company 255 && optLenLe title 255 && optLenLe department 255 &&
  optLenLe address 500 && optLenLe notes 1000

/-- Constructing an `InternalContact(...)`: run the checks and store the
stripped name the validator returns. -/
def InternalContact.make (id name email phone contact : String)
    (created_at updated_at : Nat)
    (company title department address notes : Option String) :
    Except String InternalContact :=
  if InternalContact.checks name email phone contact company title department
      address notes then
    Except.ok ⟨id, pyStrip name, email, phone, contact, created_at, updated_at,
               company, title, department, address, notes⟩
  else
    Except.error "InternalContact validation error"

instance {ε α : Type} [DecidableEq ε] [DecidableEq α] : DecidableEq (Except ε α) :=
  fun a b =>
    match a, b with
    | Except.error e, Except.error f =>
        if h : e = f then isTrue (by rw [h]) else isFalse (by simp [h])
    | Except.ok x, Except.ok y =>
        if h : x = y then isTrue (by rw [h]) else isFalse (by simp [h])
    | Except.error _, Except.ok _ => isFalse (by simp)
    | Except.ok _, Except.error _ => isFalse (by simp)

/-- A valid canonical contact: one the pydantic model reproduces unchanged,
i.e. an instance the ingestion collaborator can actually emit. -/
def InternalContact.valid (c : InternalContact) : Prop :=
  InternalContact.make c.id c.name c.email c.phone c.contact c.created_at
    c.updated_at c.company c.title c.department c.address c.notes = Except.ok c

instance : DecidablePred InternalContact.valid := fun c => by
  unfold InternalContact.valid
  infer_instance

/-! ## Salesforce schema and adapter
(app/models/salesforce_schema.py, app/adapters/salesforce_adapter.py) -/

/-- app/models/salesforce_schema.py, SalesforceContact. -/
structure SalesforceContact where
  Id : String
  FirstName : String
  LastName : String
  Email : String
  Phone : String
  LeadSource : String
  Status : String
  Type' : String
  CreatedDate : Nat
  LastModifiedDate : Nat
  Company : Option String
  Title : Option String
  Department : Option String
  Description : Option String
  AccountId : Option String
  Contact_Type__c : Option String
  Internal_ID__c : Option String
deriving DecidableEq

/-- The pydantic validation run by `SalesforceContact(...)`: field constraints
(FirstName 1..40, LastName 1..80, Phone 10..40 with 10 digits, `EmailStr`,
max lengths of the remaining fields) plus the validators that reject blank
names. -/
def SalesforceContact.checks (FirstName LastName Email Phone LeadSource Status Type' : String)
    (Company Title Department Description AccountId ContactTypeC InternalIdC : Option String) :
    Bool :=
  1 ≤ FirstName.length && FirstName.length ≤ 40 && pyStrip FirstName ≠ "" &&
  1 ≤ LastName.length && LastName.length ≤ 80 && pyStrip LastName ≠ "" &&
  isValidEmail Email &&
  10 ≤ Phone.length && Phone.length ≤ 40 && 10 ≤ digitCount Phone &&
  LeadSource.length ≤ 255 && Status.length ≤ 255 && Type'.length ≤ 255 &&
  optLenLe Company 255 && optLenLe Title 128 && optLenLe Department 80 &&
  optLenLe Description 32000 && optLenLe AccountId 18 &&
  optLenLe ContactTypeC 255 && optLenLe InternalIdC 255

/-- Constructing a `SalesforceContact(...)`: run the checks and store the
stripped names the validators return. -/
def SalesforceContact.make (Id FirstName LastName Email Phone LeadSource Status Type' : String)
    (CreatedDate LastModifiedDate : Nat)
    (Company Title Department Description AccountId ContactTypeC InternalIdC : Option String) :
    Except String SalesforceContact :=
  if SalesforceContact.checks FirstName LastName Email Phone LeadSource Status
      Type' Company Title Department Description AccountId ContactTypeC InternalIdC then
    Except.ok ⟨Id, pyStrip FirstName, pyStrip LastName, Email, Phone, LeadSource,
               Status, Type', CreatedDate, LastModifiedDate, Company, Title,
               Department, Description, AccountId, ContactTypeC, InternalIdC⟩
  else
    Except.error "SalesforceContact validation error"

/-- SalesforceAdapter._map_contact_type_to_lead_source (`dict.get` with
default "Other"). -/
def map_contact_type_to_lead_source (contact_type : String) : String :=
  match contact_type with
  | "lead" => "Website"
  | "customer" => "Customer Portal"
  | "prospect" => "Marketing Campaign"
  | "vendor" => "Partner Referral"
  | "partner" => "Partner Program"
  | "employee" => "Internal"
  | _ => "Other"

/-- SalesforceAdapter._map_contact_type_to_status (default "New"). -/
def map_contact_type_to_status (contact_type : String) : String :=
  match contact_type with
  | "lead" => "New"
  | "customer" => "Active"
  | "prospect" => "Qualified"
  | "vendor" => "Active"
  | "partner" => "Active"
  | "employee" => "Active"
  | _ => "New"

/-- SalesforceAdapter._map_contact_type_to_type (default "Lead"). -/
def map_contact_type_to_type (contact_type : String) : String :=
  match contact_type with
  | "lead" => "Lead"
  | "customer" => "Customer"
  | "prospect" => "Prospect"
  | "vendor" => "Vendor"
  | "partner" => "Partner"
  | "employee" => "Employee"
  | _ => "Lead"

/-- The job-title fallback table shared verbatim by both adapters
(SalesforceAdapter._map_contact_type_to_title,
HubSpotAdapter._map_contact_type_to_job_title; default ""). -/
def map_contact_type_to_title (contact_type : String) : String :=
  match contact_type with
  | "customer" => "Customer"
  | "partner" => "Partner"
  | "vendor" => "Vendor"
  | _ => ""

/-- The department fallback table shared verbatim by both adapters
(default ""). -/
def map_contact_type_to_department (contact_type : String) : String :=
  match contact_type with
  | "customer" => "Customer Success"
  | "partner" => "Partnerships"
  | "vendor" => "Procurement"
  | _ => ""

/-- SalesforceAdapter._map_salesforce_type_to_contact_type: keyed on the
Salesforce `Type` (the `lead_source` argument is accepted and ignored, as in
the source); default "lead". -/
def map_salesforce_type_to_contact_type (sf_type lead_source : String) : String :=
  match sf_type, lead_source with
  | "Lead", _ => "lead"
  | "Customer", _ => "customer"
  | "Prospect", _ => "prospect"
  | "Vendor", _ => "vendor"
  | "Partner", _ => "partner"
  | "Employee", _ => "employee"
  | _, _ => "lead"

/-- The Description literal built in SalesforceAdapter.transform_to_external. -/
def salesforceDescription (contact_type : String) : String :=
  "Contact synced from internal system - Type: " ++ contact_type

/-- SalesforceAdapter.transform_to_external: build the SalesforceContact from
the canonical contact.  `AccountId` is assigned after construction for
customer/partner/vendor contacts; pydantic does not re-validate assignments
(no `validate_assignment`), so no length check applies on that path. -/
def SalesforceAdapter.transform_to_external (c : InternalContact) :
    Except String SalesforceContact :=
  match SalesforceContact.make c.id (extract_first_name c.name)
      (extract_last_name c.name) c.email c.phone
      (map_contact_type_to_lead_source c.contact)
      (map_contact_type_to_status c.contact)
      (map_contact_type_to_type c.contact)
      c.created_at c.updated_at
      (some (pyOrStr c.company (extract_company_from_email c.email)))
      (some (pyOrStr c.title (map_contact_type_to_title c.contact)))
      (some (pyOrStr c.department (map_contact_type_to_department c.contact)))
      (some (salesforceDescription c.contact))
      none
      (some c.contact) (some c.id) with
  | Except.error e => Except.error e
  | Except.ok sf =>
      if ["customer", "partner", "vendor"].contains c.contact then
        Except.ok { sf with AccountId := some ("ACC_" ++ c.id) }
      else
        Except.ok sf

/-- SalesforceAdapter.transform_from_external: re-validate the external dict
as a SalesforceContact (`model_dump(exclude_none=True)` and re-parsing
round-trip the model fields one-to-one, extra keys such as the metadata being
ignored), then build the InternalContact. -/
def SalesforceAdapter.transform_from_external (sf : SalesforceContact) :
    Except String InternalContact :=
  match SalesforceContact.make sf.Id sf.FirstName sf.LastName sf.Email sf.Phone
      sf.LeadSource sf.Status sf.Type' sf.CreatedDate sf.LastModifiedDate
      sf.Company sf.Title sf.Department sf.Description sf.AccountId
      sf.Contact_Type__c sf.Internal_ID__c with
  | Except.error e => Except.error e
  | Except.ok sf2 =>
      InternalContact.make sf2.Id (pyStrip (sf2.FirstName ++ " " ++ sf2.LastName))
        sf2.Email sf2.Phone
        (map_salesforce_type_to_contact_type sf2.Type' sf2.LeadSource)
        sf2.CreatedDate sf2.LastModifiedDate
        sf2.Company sf2.Title sf2.Department none none

/-! ## HubSpot schema and adapter
(app/models/hubspot_schema.py, app/adapters/hubspot_adapter.py) -/

/-- app/models/hubspot_schema.py, HubSpotContactProperties. -/
structure HubSpotContactProperties where
  firstname : String
  lastname : String
  email : String
  phone : String
  lifecyclestage : String
  hs_lead_status : String
  createdate : Nat
  lastmodifieddate : Nat
  company : Option String
  jobtitle : Option String
  department : Option String
  address : Option String
  hs_analytics_source : Option String
  hs_analytics_source_data_1 : Option String
  customer_type : Option String
  account_id : Option String
  relationship_type : Option String
  internal_id : Option String
deriving DecidableEq

/-- app/models/hubspot_schema.py, HubSpotContact (an id plus the nested
properties model; the id field itself carries no constraint). -/
structure HubSpotContact where
  id : String
  properties : HubSpotContactProperties
deriving DecidableEq

/-- Constructing a `HubSpotContactProperties(...)`: pydantic field constraints
(names 1..255 with strip validators, phone 10..20 with 10 digits, `EmailStr`,
max lengths of the remaining fields). -/
def HubSpotContactProperties.checks
    (firstname lastname email phone lifecyclestage hs_lead_status : String)
    (company jobtitle department address hs_analytics_source
     hs_analytics_source_data_1 customer_type account_id relationship_type
     internal_id : Option String) : Bool :=
  1 ≤ firstname.length && firstname.length ≤ 255 && pyStrip firstname ≠ "" &&
  1 ≤ lastname.length && lastname.length ≤ 255 && pyStrip lastname ≠ "" &&
  isValidEmail email &&
  10 ≤ phone.length && phone.length ≤ 20 && 10 ≤ digitCount phone &&
  lifecyclestage.length ≤ 255 && hs_lead_status.length ≤ 255 &&
  optLenLe company 255 && optLenLe jobtitle 255 && optLenLe department 255 &&
  optLenLe address 500 && optLenLe hs_analytics_source 255 &&
  optLenLe hs_analytics_source_data_1 255 && optLenLe customer_type 255 &&
  optLenLe account_id 255 && optLenLe relationship_type 255 &&
  optLenLe internal_id 255

/-- Constructing a `HubSpotContactProperties(...)`: run the checks and store
the stripped names the validators return. -/
def HubSpotContactProperties.make
    (firstname lastname email phone lifecyclestage hs_lead_status : String)
    (createdate lastmodifieddate : Nat)
    (company jobtitle department address hs_analytics_source
     hs_analytics_source_data_1 customer_type account_id relationship_type
     internal_id : Option String) :
    Except String HubSpotContactProperties :=
  if HubSpotContactProperties.checks firstname lastname email phone
      lifecyclestage hs_lead_status company jobtitle department address
      hs_analytics_source hs_analytics_source_data_1 customer_type account_id
      relationship_type internal_id then
    Except.ok ⟨pyStrip firstname, pyStrip lastname, email, phone, lifecyclestage,
               hs_lead_status, createdate, lastmodifieddate, company, jobtitle,
               department, address, hs_analytics_source,
               hs_analytics_source_data_1, customer_type, account_id,
               relationship_type, internal_id⟩
  else
    Except.error "HubSpotContactProperties validation error"

/-- HubSpotAdapter._map_contact_type_to_lifecycle_stage (default "lead"). -/
def map_contact_type_to_lifecycle_stage (contact_type : String) : String :=
  match contact_type with
  | "lead" => "lead"
  | "customer" => "customer"
  | "prospect" => "opportunity"
  | "vendor" => "customer"
  | "partner" => "customer"
  | "employee" => "customer"
  | _ => "lead"

/-- HubSpotAdapter._map_contact_type_to_lead_status (default "NEW"). -/
def map_contact_type_to_lead_status (contact_type : String) : String :=
  match contact_type with
  | "lead" => "NEW"
  | "customer" => "CUSTOMER"
  | "prospect" => "QUALIFIED"
  | "vendor" => "CUSTOMER"
  | "partner" => "CUSTOMER"
  | "employee" => "CUSTOMER"
  | _ => "NEW"

/-- HubSpotAdapter._map_contact_type_to_relationship_type (default ""). -/
def map_contact_type_to_relationship_type (contact_type : String) : String :=
  match contact_type with
  | "customer" => "Customer"
  | "partner" => "Partner"
  | "vendor" => "Vendor"
  | _ => ""

/-- HubSpotAdapter._map_hubspot_stage_to_contact_type: the if/elif chain over
lead status and lifecycle stage. -/
def map_hubspot_stage_to_contact_type (lifecycle_stage lead_status : String) : String :=
  if lead_status = "CUSTOMER" then "customer"
  else if lifecycle_stage = "lead" then "lead"
  else if lifecycle_stage = "opportunity" then "prospect"
  else "lead"

/-- HubSpotAdapter.transform_to_external: build the properties model from the
canonical contact, then wrap it with the contact id. -/
def HubSpotAdapter.transform_to_external (c : InternalContact) :
    Except String HubSpotContact :=
  match HubSpotContactProperties.make (extract_first_name c.name)
      (extract_last_name c.name) c.email c.phone
      (map_contact_type_to_lifecycle_stage c.contact)
      (map_contact_type_to_lead_status c.contact)
      c.created_at c.updated_at
      (some (pyOrStr c.company (extract_company_from_email c.email)))
      (some (pyOrStr c.title (map_contact_type_to_title c.contact)))
      (some (pyOrStr c.department (map_contact_type_to_department c.contact)))
      c.address
      (some "SYSTEM_SYNC") (some c.contact) (some c.contact)
      (some ("ACC_" ++ c.id))
      (some (map_contact_type_to_relationship_type c.contact))
      (some c.id) with
  | Except.error e => Except.error e
  | Except.ok props => Except.ok ⟨c.id, props⟩

/-- HubSpotAdapter.transform_from_external: re-validate the external dict as a
HubSpotContact (dict dump and re-parse round-trip the model fields, extra keys
ignored), then build the InternalContact. -/
def HubSpotAdapter.transform_from_external (hc : HubSpotContact) :
    Except String InternalContact :=
  match HubSpotContactProperties.make hc.properties.firstname
      hc.properties.lastname hc.properties.email hc.properties.phone
      hc.properties.lifecyclestage hc.properties.hs_lead_status
      hc.properties.createdate hc.properties.lastmodifieddate
      hc.properties.company hc.properties.jobtitle hc.properties.department
      hc.properties.address hc.properties.hs_analytics_source
      hc.properties.hs_analytics_source_data_1 hc.properties.customer_type
      hc.properties.account_id hc.properties.relationship_type
      hc.properties.internal_id with
  | Except.error e => Except.error e
  | Except.ok p =>
      InternalContact.make hc.id (pyStrip (p.firstname ++ " " ++ p.lastname))
        p.email p.phone
        (map_hubspot_stage_to_contact_type p.lifecyclestage p.hs_lead_status)
        p.createdate p.lastmodifieddate
        p.company p.jobtitle p.department p.address none

/-! ## Routing table and schema transformer
(app/services/schema_transformer.py) -/

/-- A Python dict used as a finite string map (the routing table and the
adapter registry), embedded by its lookup function. -/
def StrMap (α : Type) : Type := String → Option α

/-- The two target systems (`ExternalSystem` enum in
app/services/schema_transformer.py). -/
inductive ExternalSystem where
  | salesforce
  | hubspot
deriving DecidableEq

/-- The `.value` of the enum member. -/
def ExternalSystem.value : ExternalSystem → String
  | ExternalSystem.salesforce => "salesforce"
  | ExternalSystem.hubspot => "hubspot"

/-- Which concrete adapter class an entry of `self.adapters` is. -/
inductive AdapterKind where
  | salesforce
  | hubspot
deriving DecidableEq

/-- SchemaTransformer._setup_routing: the hard-coded default routing dict. -/
def default_routing : StrMap String := fun k =>
  match k with
  | "lead" => some "salesforce"
  | "customer" => some "hubspot"
  | "prospect" => some "salesforce"
  | "vendor" => some "hubspot"
  | "partner" => some "hubspot"
  | "employee" => some "salesforce"
  | _ => none

/-- Python `{**d, **overrides}` and `d.update(overrides)`: per-key
last-write-wins merge, the override winning. -/
def dictUpdate {α : Type} (d overrides : StrMap α) : StrMap α := fun k =>
  match overrides k with
  | some v => some v
  | none => d k

/-- SchemaTransformer._setup_routing: default routing merged with the
`contact_type_routing` entry of the configuration. -/
def setup_routing (config_routing : StrMap String) : StrMap String :=
  dictUpdate default_routing config_routing

/-- SchemaTransformer.update_routing_configuration:
`self.contact_type_routing.update(new_routing)` — the overrides are merged
unconditionally, with no check against the registered adapters. -/
def update_routing_configuration (routing new_routing : StrMap String) :
    StrMap String :=
  dictUpdate routing new_routing

/-- SchemaTransformer._initialize_adapters: the registry holds exactly the
"salesforce" and "hubspot" adapters. -/
def default_adapters : StrMap AdapterKind := fun k =>
  if k = "salesforce" then some AdapterKind.salesforce
  else if k = "hubspot" then some AdapterKind.hubspot
  else none

/-- SchemaTransformer.get_adapter: look the contact type up in the routing
table, fall back to "salesforce" when the entry is missing or falsy, then
require the named adapter to be registered — raising ValueError otherwise. -/
def get_adapter (adapters : StrMap AdapterKind) (routing : StrMap String)
    (contact_type : String) : Except String AdapterKind :=
  let adapter_name :=
    match routing contact_type with
    | none => "salesforce"
    | some s => if s = "" then "salesforce" else s
  match adapters adapter_name with
  | some a => Except.ok a
  | none => Except.error ("Adapter " ++ adapter_name ++ " not found for contact type " ++ contact_type)

/-- SchemaTransformer.get_external_system: look the contact type up with
default "salesforce", then map the adapter name onto the enum, anything
unknown falling back to Salesforce.  This function is total — it never
raises. -/
def get_external_system (routing : StrMap String) (contact_type : String) :
    ExternalSystem :=
  let adapter_name := (routing contact_type).getD "salesforce"
  if adapter_name = "salesforce" then ExternalSystem.salesforce
  else if adapter_name = "hubspot" then ExternalSystem.hubspot
  else ExternalSystem.salesforce

/-- The `_metadata` dict attached by BaseAdapter.add_metadata and extended by
SchemaTransformer.transform_contact with the external system. -/
structure TransformMetadata where
  adapter : String
  contact_type : String
  transformed_at : Nat
  original_id : String
  external_system : Option String
deriving DecidableEq

/-- The vendor-specific payload produced by an adapter. -/
inductive ExternalPayload where
  | sf (c : SalesforceContact)
  | hs (c : HubSpotContact)
deriving DecidableEq

/-- A transformed record: vendor payload plus the `_metadata` dict. -/
structure TransformedData where
  payload : ExternalPayload
  metadata : TransformMetadata
deriving DecidableEq

/-- Running one adapter's transform_to_external and BaseAdapter.add_metadata
(`adapter` is the class name, `transformed_at` the wall clock `now`). -/
def AdapterKind.run_transform (a : AdapterKind) (now : Nat) (c : InternalContact) :
    Except String TransformedData :=
  match a with
  | AdapterKind.salesforce =>
      match SalesforceAdapter.transform_to_external c with
      | Except.error e => Except.error e
      | Except.ok sf =>
          Except.ok ⟨ExternalPayload.sf sf,
                     ⟨"SalesforceAdapter", c.contact, now, c.id, none⟩⟩
  | AdapterKind.hubspot =>
      match HubSpotAdapter.transform_to_external c with
      | Except.error e => Except.error e
      | Except.ok hc =>
          Except.ok ⟨ExternalPayload.hs hc,
                     ⟨"HubSpotAdapter", c.contact, now, c.id, none⟩⟩

/-- SchemaTransformer.transform_contact: pick the adapter for the contact's
category (ValueError propagates), run its transform, then record
`_metadata["external_system"]` from get_external_system. -/
def transform_contact (adapters : StrMap AdapterKind) (routing : StrMap String)
    (now : Nat) (c : InternalContact) : Except String TransformedData :=
  match get_adapter adapters routing c.contact with
  | Except.error e => Except.error e
  | Except.ok a =>
      match a.run_transform now c with
      | Except.error e => Except.error e
      | Except.ok td =>
          Except.ok { td with metadata :=
            { td.metadata with
              external_system := some (get_external_system routing c.contact).value } }

/-- The round trip of claim interest: transform a canonical contact with the
adapter its category routes to, then run that adapter's
transform_from_external on the produced payload. -/
def adapter_roundtrip (adapters : StrMap AdapterKind) (routing : StrMap String)
    (now : Nat) (c : InternalContact) : Except String InternalContact :=
  match transform_contact adapters routing now c with
  | Except.error e => Except.error e
  | Except.ok td =>
      match td.payload with
      | ExternalPayload.sf s => SalesforceAdapter.transform_from_external s
      | ExternalPayload.hs h => HubSpotAdapter.transform_from_external h

/-! ## Event consumer (app/services/event_consumer_service.py) -/

/-- A Python value as it appears inside an incoming event dict: a string or a
nested dict.  (The validator only ever distinguishes strings from dicts; any
other payload value can be represented by its string form without affecting
the checks modelled here.) -/
inductive PyVal where
  | str (s : String)
  | vdict (fields : List (String × PyVal))

/-- An incoming stream event: a Python dict with string keys. -/
def Event : Type := List (String × PyVal)

/-- Python `event.get(k)`. -/
def eventGet (e : Event) (k : String) : Option PyVal :=
  List.lookup k e

/-- Python `v == "lit"` for an event value: only an equal string compares
equal. -/
def PyVal.eqStr : PyVal → String → Bool
  | PyVal.str s, t => s = t
  | PyVal.vdict _, _ => false

/-- Python `field in item`: key membership for a dict, substring test for a
string. -/
def pyIn (field : String) : PyVal → Bool
  | PyVal.str s => pyStrIn field s
  | PyVal.vdict d => (List.lookup field d).isSome

/-- The guard `event.get("record") != "contacts"` (negated): the event is a
contacts-kind event. -/
def recordIsContacts (e : Event) : Bool :=
  match eventGet e "record" with
  | some v => v.eqStr "contacts"
  | none => false

/-- The check `event["operation"] not in ["create", "update", "delete"]`
(negated): the operation value is one of the three recognized strings. -/
def opRecognized (e : Event) : Bool :=
  match eventGet e "operation" with
  | some v => v.eqStr "create" || v.eqStr "update" || v.eqStr "delete"
  | none => false

/-- The final loop of `_validate_event`: every one of the five mandatory
payload fields is present in `event["item"]`. -/
def mandatoryFieldsPresent (e : Event) : Bool :=
  match eventGet e "item" with
  | some it => ["id", "name", "email", "phone", "contact"].all (fun f => pyIn f it)
  | none => false

/-- InternalEventConsumer._validate_event: the three top-level keys must be
present, the record kind must be "contacts", the operation one of the three
recognized values, and all five mandatory payload fields present, checked in
this order with early-out returns. -/
def validate_event (e : Event) : Bool :=
  ((eventGet e "record").isSome && (eventGet e "operation").isSome &&
     (eventGet e "item").isSome) &&
  recordIsContacts e && opRecognized e && mandatoryFieldsPresent e

/-- One entry of `self.processed_events` (the transformed payload is
abstracted to the external-system name it reports). -/
structure ProcessedEvent where
  received_at : Nat
  event : Event
  external_data : Option String
  transformation_success : Bool

/-- The mutable counters of InternalEventConsumer. -/
structure ConsumerState where
  processed_events : List ProcessedEvent
  event_counters : List (String × Nat)
  contact_type_counters : List (String × Nat)
  external_system_counters : List (String × Nat)
  transformation_errors : Nat
  is_processing : Bool

/-- InternalEventConsumer.__init__: all counters zero. -/
def initialConsumerState : ConsumerState :=
  { processed_events := []
    event_counters := [("create", 0), ("update", 0), ("delete", 0)]
    contact_type_counters :=
      [("lead", 0), ("customer", 0), ("prospect", 0), ("vendor", 0),
       ("partner", 0), ("employee", 0)]
    external_system_counters := [("salesforce", 0), ("hubspot", 0)]
    transformation_errors := 0
    is_processing := false }

/-- Python `if key in counters: counters[key] += 1`: increment where present,
no-op otherwise. -/
def incCounter (d : List (String × Nat)) (k : String) : List (String × Nat) :=
  d.map (fun kv => if kv.1 = k then (kv.1, kv.2 + 1) else kv)

/-- The same guarded increment when the key comes from `event.get(...)` or
`item.get(...)`: only a string value can match a counter key. -/
def incIfMember (d : List (String × Nat)) (v : Option PyVal) : List (String × Nat) :=
  match v with
  | some (PyVal.str s) => incCounter d s
  | _ => d

/-- InternalEventConsumer.consume_event.  The schema-transformer collaborator
is abstracted as `transform`, returning the external-system name on success
and `none` when the transformation raised (the except branch).  The
`finally:` clause leaves `is_processing` false on every path.  A payload that
is a plain string passes `_validate_event` (substring test) but makes
`item.get("contact")` raise AttributeError, caught by the outer handler, so
that path returns false with no counter touched. -/
def consume_event (transform : PyVal → Option String) (now : Nat)
    (st : ConsumerState) (e : Event) : Bool × ConsumerState :=
  if ¬ recordIsContacts e then
    (true, { st with is_processing := false })
  else if ¬ validate_event e then
    (false, { st with is_processing := false })
  else
    let operation := eventGet e "operation"
    match (eventGet e "item").getD (PyVal.vdict []) with
    | PyVal.str _ => (false, { st with is_processing := false })
    | PyVal.vdict d =>
        let contact_type := List.lookup "contact" d
        let st1 := { st with
          event_counters := incIfMember st.event_counters operation }
        let st2 := { st1 with
          contact_type_counters := incIfMember st1.contact_type_counters contact_type }
        match transform (PyVal.vdict d) with
        | some external_system =>
            let st3 := { st2 with
              external_system_counters :=
                incCounter st2.external_system_counters external_system }
            (true, { st3 with
              processed_events :=
                st3.processed_events ++ [⟨now, e, some external_system, true⟩]
              is_processing := false })
        | none =>
            let st3 := { st2 with
              transformation_errors := st2.transformation_errors + 1 }
            (true, { st3 with
              processed_events := st3.processed_events ++ [⟨now, e, none, false⟩]
              is_processing := false })

/-! ## Pipeline queues and statistics
(app/services/integrated_pipeline_service.py,
app/services/external_sync_service.py) -/

/-- An `asyncio.Queue`: `maxsize <= 0` means an infinite queue; `put` waits
only while the queue is full. -/
structure AsyncQueue (α : Type) where
  maxsize : Int
  items : List α

/-- `asyncio.Queue.full()`: never full when `maxsize <= 0`, otherwise full at
`qsize() >= maxsize`. -/
def AsyncQueue.full {α : Type} (q : AsyncQueue α) : Bool :=
  if q.maxsize ≤ 0 then false else (q.items.length : Int) ≥ q.maxsize

/-- `await queue.put(x)`: blocks (no result) when the queue is full and no
consumer runs, otherwise appends. -/
def AsyncQueue.put {α : Type} (q : AsyncQueue α) (x : α) : Option (AsyncQueue α) :=
  if q.full then none else some ⟨q.maxsize, q.items ++ [x]⟩

/-- A sequence of producer-side puts with no intervening consumer. -/
def putMany {α : Type} (q : AsyncQueue α) (xs : List α) : Option (AsyncQueue α) :=
  xs.foldlM AsyncQueue.put q

/-- IntegratedPipelineService.__init__ (both variants of the service): each of
`raw_events_queue`, `processed_events_queue` and `transformed_events_queue` is
created as `asyncio.Queue()`, i.e. with the default `maxsize = 0`. -/
def mk_pipeline_queue (α : Type) : AsyncQueue α :=
  { maxsize := 0, items := [] }

/-- The PipelineStats dataclass of integrated_pipeline_service.py. -/
structure PipelineStats where
  events_generated : Nat
  events_processed : Nat
  events_transformed : Nat
  events_dispatched : Nat
  events_failed : Nat
  start_time : Option Nat
  last_event_time : Option Nat
deriving DecidableEq

/-- PipelineStats.reset: zero every counter and clear both timestamps,
`start_time` included. -/
def PipelineStats.reset (_s : PipelineStats) : PipelineStats :=
  { events_generated := 0, events_processed := 0, events_transformed := 0,
    events_dispatched := 0, events_failed := 0,
    start_time := none, last_event_time := none }

/-- The start/stop-relevant state of IntegratedPipelineService. -/
structure PipelineState where
  is_running : Bool
  stats : PipelineStats
deriving DecidableEq

/-- IntegratedPipelineService.start_pipeline, up to the point where the stage
tasks are spawned: a double start is a no-op with a warning; otherwise the
running flag is set, `stats.start_time` is assigned the current time, and
then `stats.reset()` is called. -/
def start_pipeline (now : Nat) (p : PipelineState) : PipelineState :=
  if p.is_running then p
  else
    { p with
      is_running := true
      stats := PipelineStats.reset { p.stats with start_time := some now } }

/-- The runtime reported by IntegratedPipelineService.get_pipeline_stats:
`None` unless `stats.start_time` is set, else the elapsed time. -/
def pipeline_runtime (now : Nat) (p : PipelineState) : Option Nat :=
  match p.stats.start_time with
  | some t => some (now - t)
  | none => none

/-! ## Configuration validation (app/utils/config_manager.py) -/

/-- The AppConfig dataclass: the rate and batch values are integers, the two
distributions finite maps to fractions (Python floats modelled as rationals).
Logging fields play no role in validation and are omitted. -/
structure AppConfig where
  events_per_second : Int
  batch_size : Int
  enable_async : Bool
  contact_type_distribution : List (String × ℚ)
  operation_distribution : List (String × ℚ)

/-- `sum(distribution.values())`. -/
def distSum (d : List (String × ℚ)) : ℚ :=
  (d.map Prod.snd).sum

/-- ConfigManager.validate_config: reject a non-positive rate or batch size,
then reject either distribution whose values do not sum to 1 within 0.001. -/
def validate_config (c : AppConfig) : Bool :=
  if c.events_per_second ≤ 0 then false
  else if c.batch_size ≤ 0 then false
  else if (1 : ℚ)/1000 < |distSum c.contact_type_distribution - 1| then false
  else if (1 : ℚ)/1000 < |distSum c.operation_distribution - 1| then false
  else true

/-! ## Helper lemmas -/

/-- The endpoint URLs from APIDispatcherService.__init__. -/
def endpoint_url : ExternalSystem → String
  | ExternalSystem.salesforce => "http://localhost:8000/mock/salesforce/contact"
  | ExternalSystem.hubspot => "http://localhost:8000/mock/hubspot/contact"

/-- When every POST comes back 429 the retry loop burns all its fuel and
exits with the retries-exhausted outcome, having made one POST per unit of
fuel. -/
theorem postLoop_all429 (url : String) (resp : Nat → HttpResp)
    (h : ∀ i, is429 (resp i) = true) :
    ∀ fuel attempt, postLoop url resp fuel attempt = (retriesExhaustedOutcome, fuel) := by
  intro fuel
  induction fuel with
  | zero => intro attempt; rfl
  | succ n ih =>
      intro attempt
      have h0 := h attempt
      cases hr : resp attempt with
      | exn msg => rw [hr] at h0; simp [is429] at h0
      | status code text =>
          rw [hr] at h0
          have hc : code = 429 := by
            by_contra hne
            simp [is429, hne] at h0
          subst hc
          simp [postLoop, hr, ih (attempt + 1)]

/-- Puts into a queue with `maxsize = 0` never block and simply append. -/
theorem putMany_maxsize_zero {α : Type} (xs : List α) :
    ∀ ys : List α, putMany ⟨0, ys⟩ xs = some ⟨0, ys ++ xs⟩ := by
  induction xs with
  | nil => intro ys; simp [putMany, List.foldlM]
  | cons x xs ih =>
      intro ys
      have hstep : AsyncQueue.put (⟨0, ys⟩ : AsyncQueue α) x = some ⟨0, ys ++ [x]⟩ := by
        simp [AsyncQueue.put, AsyncQueue.full]
      calc putMany (⟨0, ys⟩ : AsyncQueue α) (x :: xs)
          = putMany (⟨0, ys ++ [x]⟩ : AsyncQueue α) xs := by
            simp [putMany, List.foldlM, hstep]
        _ = some ⟨0, (ys ++ [x]) ++ xs⟩ := ih (ys ++ [x])
        _ = some ⟨0, ys ++ x :: xs⟩ := by simp

/-- A contacts-kind event has its "record" key present. -/
theorem recordIsContacts_isSome {e : Event} (h : recordIsContacts e = true) :
    (eventGet e "record").isSome = true := by
  cases hr : eventGet e "record" <;> simp [recordIsContacts, hr] at h ⊢

/-- An event with a recognized operation has its "operation" key present. -/
theorem opRecognized_isSome {e : Event} (h : opRecognized e = true) :
    (eventGet e "operation").isSome = true := by
  cases hr : eventGet e "operation" <;> simp [opRecognized, hr] at h ⊢

/-- An event whose payload carries the mandatory fields has its "item" key
present. -/
theorem mandatoryFieldsPresent_isSome {e : Event} (h : mandatoryFieldsPresent e = true) :
    (eventGet e "item").isSome = true := by
  cases hr : eventGet e "item" <;> simp [mandatoryFieldsPresent, hr] at h ⊢

/-! ## Claim theorems -/

/-- C2: for every max_retries, if every POST attempt returns HTTP 429 then
`_post_with_retries` returns the failure outcome (success false) after exactly
max_retries + 1 POST attempts, carrying status code 429, with no partial
success. -/
theorem dispatch_all_429_exhausts_retries (url : String) (resp : Nat → HttpResp)
    (max_retries : Nat) (h : ∀ i, is429 (resp i) = true) :
    post_with_retries url resp max_retries = (retriesExhaustedOutcome, max_retries + 1) ∧
    List.lookup "success" retriesExhaustedOutcome = some (JValue.bool false) ∧
    List.lookup "status_code" retriesExhaustedOutcome = some (JValue.nat 429) :=
  ⟨postLoop_all429 url resp h (max_retries + 1) 0, rfl, rfl⟩

/-- Witness for C2: three POSTs all answering 429 with max_retries = 2. -/
theorem dispatch_all_429_exhausts_retries_witness :
    post_with_retries (endpoint_url ExternalSystem.salesforce)
        (fun _ => HttpResp.status 429 "rate limited") 2 =
      (retriesExhaustedOutcome, 3) ∧
    List.lookup "success" retriesExhaustedOutcome = some (JValue.bool false) ∧
    List.lookup "status_code" retriesExhaustedOutcome = some (JValue.nat 429) :=
  dispatch_all_429_exhausts_retries (endpoint_url ExternalSystem.salesforce)
    (fun _ => HttpResp.status 429 "rate limited") 2 (fun _ => rfl)

/-- C3 counterexample: a dispatch answered 200 on the first POST returns the
success dict after exactly one POST, but that dict has no "attempts" key at
all — the outcome record does not carry an attempts field. -/
theorem dispatch_200_outcome_lacks_attempts_field :
    (post_with_retries (endpoint_url ExternalSystem.salesforce)
        (fun _ => HttpResp.status 200 "created") 5).2 = 1 ∧
    List.lookup "success"
        (post_with_retries (endpoint_url ExternalSystem.salesforce)
          (fun _ => HttpResp.status 200 "created") 5).1 = some (JValue.bool true) ∧
    List.lookup "attempts"
        (post_with_retries (endpoint_url ExternalSystem.salesforce)
          (fun _ => HttpResp.status 200 "created") 5).1 = none :=
  ⟨rfl, rfl, rfl⟩

/-- C3 as amended: an endpoint answering HTTP 200 on the first call makes the
dispatch return the success outcome with exactly one POST performed; the
outcome dict carries success, external_system and response keys and no
attempts field. -/
theorem dispatch_200_first_call_success (url : String) (resp : Nat → HttpResp)
    (max_retries : Nat) (body : String) (h : resp 0 = HttpResp.status 200 body) :
    post_with_retries url resp max_retries = (successOutcome url body, 1) ∧
    List.lookup "success" (successOutcome url body) = some (JValue.bool true) ∧
    List.lookup "attempts" (successOutcome url body) = none := by
  refine ⟨?_, rfl, rfl⟩
  unfold post_with_retries
  simp [postLoop, h]

/-- Witness for the amended C3 at a concrete endpoint and response. -/
theorem dispatch_200_first_call_success_witness :
    post_with_retries (endpoint_url ExternalSystem.hubspot)
        (fun _ => HttpResp.status 200 "ok") 3 =
      (successOutcome (endpoint_url ExternalSystem.hubspot) "ok", 1) ∧
    List.lookup "success" (successOutcome (endpoint_url ExternalSystem.hubspot) "ok") =
      some (JValue.bool true) ∧
    List.lookup "attempts" (successOutcome (endpoint_url ExternalSystem.hubspot) "ok") =
      none :=
  dispatch_200_first_call_success (endpoint_url ExternalSystem.hubspot)
    (fun _ => HttpResp.status 200 "ok") 3 "ok" rfl

/-- C4: for every routing table and every contact-category string, resolving
the external system always yields one of the two target systems, and an
unmapped category resolves to the Salesforce default. -/
theorem get_external_system_total (routing : StrMap String) (contact_type : String) :
    (get_external_system routing contact_type = ExternalSystem.salesforce ∨
     get_external_system routing contact_type = ExternalSystem.hubspot) ∧
    (routing contact_type = none →
      get_external_system routing contact_type = ExternalSystem.salesforce) := by
  constructor
  · unfold get_external_system
    dsimp only
    split
    · exact Or.inl rfl
    · split
      · exact Or.inr rfl
      · exact Or.inl rfl
  · intro h
    simp [get_external_system, h]

/-- Witness for C4: a category absent from the default routing table resolves
to Salesforce. -/
theorem get_external_system_total_witness :
    get_external_system default_routing "franchise" = ExternalSystem.salesforce :=
  (get_external_system_total default_routing "franchise").2 rfl

/-- C5: the validator accepts every event with record kind "contacts", a
recognized operation and all five mandatory payload fields, and returns false
whenever any mandatory payload field is missing. -/
theorem validator_accepts_mandatory_fields (e : Event) :
    (recordIsContacts e = true → opRecognized e = true →
      mandatoryFieldsPresent e = true → validate_event e = true) ∧
    (mandatoryFieldsPresent e = false → validate_event e = false) := by
  constructor
  · intro h1 h2 h3
    simp [validate_event, h1, h2, h3, recordIsContacts_isSome h1,
          opRecognized_isSome h2, mandatoryFieldsPresent_isSome h3]
  · intro h
    simp [validate_event, h]

/-- Witness for C5: a complete contacts create event is accepted; the same
event with the phone field dropped from the payload is rejected. -/
theorem validator_accepts_mandatory_fields_witness :
    validate_event
      [("record", PyVal.str "contacts"), ("operation", PyVal.str "create"),
       ("item", PyVal.vdict
         [("id", PyVal.str "C1"), ("name", PyVal.str "John Smith"),
          ("email", PyVal.str "john@acme.com"),
          ("phone", PyVal.str "0123456789"),
          ("contact", PyVal.str "lead")])] = true ∧
    validate_event
      [("record", PyVal.str "contacts"), ("operation", PyVal.str "create"),
       ("item", PyVal.vdict
         [("id", PyVal.str "C1"), ("name", PyVal.str "John Smith"),
          ("email", PyVal.str "john@acme.com"),
          ("contact", PyVal.str "lead")])] = false :=
  ⟨(validator_accepts_mandatory_fields _).1 rfl rfl rfl,
   (validator_accepts_mandatory_fields _).2 rfl⟩

/-- C6: an event whose record kind is not "contacts" is acknowledged as
successfully ignored — consume_event returns true and leaves the processed
list, every contact-type counter, every operation counter, every
external-system counter and the error count unchanged, whatever the
transformer collaborator does. -/
theorem non_contact_event_passthrough (transform : PyVal → Option String)
    (now : Nat) (st : ConsumerState) (e : Event)
    (h : recordIsContacts e = false) :
    consume_event transform now st e = (true, { st with is_processing := false }) ∧
    (consume_event transform now st e).2.event_counters = st.event_counters ∧
    (consume_event transform now st e).2.contact_type_counters = st.contact_type_counters ∧
    (consume_event transform now st e).2.external_system_counters = st.external_system_counters ∧
    (consume_event transform now st e).2.transformation_errors = st.transformation_errors ∧
    (consume_event transform now st e).2.processed_events = st.processed_events := by
  have he : consume_event transform now st e = (true, { st with is_processing := false }) := by
    unfold consume_event
    simp [h]
  exact ⟨he, by rw [he], by rw [he], by rw [he], by rw [he], by rw [he]⟩

/-- Witness for C6: an "orders" event against a consumer whose counters are
non-zero. -/
theorem non_contact_event_passthrough_witness :
    consume_event (fun _ => some "salesforce") 17
        { processed_events := []
          event_counters := [("create", 2), ("update", 0), ("delete", 1)]
          contact_type_counters := [("lead", 3), ("customer", 1)]
          external_system_counters := [("salesforce", 4), ("hubspot", 0)]
          transformation_errors := 5
          is_processing := false }
        [("record", PyVal.str "orders")] =
      (true,
        { processed_events := []
          event_counters := [("create", 2), ("update", 0), ("delete", 1)]
          contact_type_counters := [("lead", 3), ("customer", 1)]
          external_system_counters := [("salesforce", 4), ("hubspot", 0)]
          transformation_errors := 5
          is_processing := false }) :=
  (non_contact_event_passthrough (fun _ => some "salesforce") 17
    { processed_events := []
      event_counters := [("create", 2), ("update", 0), ("delete", 1)]
      contact_type_counters := [("lead", 3), ("customer", 1)]
      external_system_counters := [("salesforce", 4), ("hubspot", 0)]
      transformation_errors := 5
      is_processing := false }
    [("record", PyVal.str "orders")] rfl).1

/-- C7 counterexample: the pipeline's inter-stage queues are created with the
default maxsize 0, and no fixed capacity bounds the queue length — for every
candidate bound N, enqueueing N + 1 items succeeds without blocking. -/
theorem pipeline_queue_not_bounded :
    (mk_pipeline_queue Nat).maxsize = 0 ∧
    ¬ ∃ N : Nat, 0 < N ∧ ∀ (xs : List Nat) (q : AsyncQueue Nat),
        putMany (mk_pipeline_queue Nat) xs = some q → q.items.length ≤ N := by
  refine ⟨rfl, ?_⟩
  rintro ⟨N, _, hbound⟩
  have hput : putMany (mk_pipeline_queue Nat) (List.replicate (N + 1) 0) =
      some ⟨0, List.replicate (N + 1) 0⟩ := by
    simpa [mk_pipeline_queue] using
      putMany_maxsize_zero (α := Nat) (List.replicate (N + 1) 0) []
  have h := hbound (List.replicate (N + 1) 0) ⟨0, List.replicate (N + 1) 0⟩ hput
  simp at h

/-- C7 as amended: the three inter-stage queues are unbounded — created with
asyncio's default maxsize 0, they are never full, and any sequence of
enqueues completes without blocking, the queue length growing without any
fixed bound. -/
theorem pipeline_queue_puts_never_block (xs : List Nat) :
    putMany (mk_pipeline_queue Nat) xs = some { maxsize := 0, items := xs } ∧
    (mk_pipeline_queue Nat).full = false := by
  constructor
  · simpa [mk_pipeline_queue] using putMany_maxsize_zero xs []
  · rfl

/-- C8 counterexample: a routing override naming the unknown target system
"dynamics" is merged into the routing table by both the constructor-time
merge and the runtime update — nothing rejects it, even though no such
adapter is registered. -/
theorem routing_override_unknown_system_accepted :
    setup_routing (fun k => if k = "lead" then some "dynamics" else none) "lead" =
      some "dynamics" ∧
    update_routing_configuration default_routing
        (fun k => if k = "lead" then some "dynamics" else none) "lead" =
      some "dynamics" ∧
    default_adapters "dynamics" = none :=
  ⟨rfl, rfl, rfl⟩

/-- C8 as amended: validate_config rejects every configuration with a
non-positive events-per-second or batch-size value, but routing-table
overrides are not validated — an override is merged last-write-wins whatever
target system name it carries. -/
theorem validate_config_rejects_nonpositive (c : AppConfig)
    (h : c.events_per_second ≤ 0 ∨ c.batch_size ≤ 0) :
    validate_config c = false ∧
    ∀ (routing overrides : StrMap String) (k name : String),
      overrides k = some name →
      update_routing_configuration routing overrides k = some name := by
  constructor
  · unfold validate_config
    rcases h with h | h
    · simp [h]
    · by_cases he : c.events_per_second ≤ 0 <;> simp [he, h]
  · intro routing overrides k name hk
    simp [update_routing_configuration, dictUpdate, hk]

/-- Witness for the amended C8: a zero rate is rejected, and an override to
the unregistered system "dynamics" is applied verbatim. -/
theorem validate_config_rejects_nonpositive_witness :
    validate_config ⟨0, 10, true, [("lead", 1)], [("create", 1)]⟩ = false ∧
    update_routing_configuration default_routing
        (fun k => if k = "lead" then some "dynamics" else none) "lead" =
      some "dynamics" :=
  ⟨(validate_config_rejects_nonpositive ⟨0, 10, true, [("lead", 1)], [("create", 1)]⟩
      (Or.inl (by decide))).1,
   (validate_config_rejects_nonpositive ⟨0, 10, true, [("lead", 1)], [("create", 1)]⟩
      (Or.inl (by decide))).2 default_routing
      (fun k => if k = "lead" then some "dynamics" else none) "lead" "dynamics" rfl⟩

/-- C9: starting a stopped pipeline assigns start_time and then calls
stats.reset(), which clears it back to None — so after start_pipeline the
recorded start_time is None and a later statistics snapshot reports a null
runtime. -/
theorem start_pipeline_start_time_none (now later : Nat) (p : PipelineState)
    (h : p.is_running = false) :
    (start_pipeline now p).stats.start_time = none ∧
    pipeline_runtime later (start_pipeline now p) = none := by
  constructor
  · simp [start_pipeline, h, PipelineStats.reset]
  · simp [start_pipeline, pipeline_runtime, h, PipelineStats.reset]

/-- Witness for C9: a stopped pipeline with stale statistics. -/
theorem start_pipeline_start_time_none_witness :
    (start_pipeline 100 ⟨false, ⟨5, 4, 3, 2, 1, some 7, some 8⟩⟩).stats.start_time = none ∧
    pipeline_runtime 250 (start_pipeline 100 ⟨false, ⟨5, 4, 3, 2, 1, some 7, some 8⟩⟩) = none :=
  start_pipeline_start_time_none 100 250 ⟨false, ⟨5, 4, 3, 2, 1, some 7, some 8⟩⟩ rfl

/-- C10: when the routing table maps a category to a non-empty adapter name
that is not registered, get_adapter raises ValueError and transform_contact
propagates it, while get_external_system for the same category still returns
the Salesforce default without failing. -/
theorem unknown_routed_adapter_value_error (routing : StrMap String) (now : Nat)
    (c : InternalContact) (adapter_name : String)
    (h1 : routing c.contact = some adapter_name) (h2 : adapter_name ≠ "")
    (h3 : default_adapters adapter_name = none) :
    (∃ msg, get_adapter default_adapters routing c.contact = Except.error msg) ∧
    get_external_system routing c.contact = ExternalSystem.salesforce ∧
    (∃ msg, transform_contact default_adapters routing now c = Except.error msg) := by
  have hga : get_adapter default_adapters routing c.contact =
      Except.error ("Adapter " ++ adapter_name ++ " not found for contact type " ++ c.contact) := by
    unfold get_adapter
    simp [h1, h2, h3]
  have hsf : adapter_name ≠ "salesforce" := by
    intro hEq
    rw [hEq] at h3
    simp [default_adapters] at h3
  have hhs : adapter_name ≠ "hubspot" := by
    intro hEq
    rw [hEq] at h3
    simp [default_adapters] at h3
  have htc : transform_contact default_adapters routing now c =
      Except.error ("Adapter " ++ adapter_name ++ " not found for contact type " ++ c.contact) := by
    unfold transform_contact
    rw [hga]
  exact ⟨⟨_, hga⟩, by simp [get_external_system, h1, hsf, hhs], ⟨_, htc⟩⟩

/-- Witness for C10: after overriding the routing for "lead" to the
unregistered system "dynamics", transforming a lead contact fails while
system resolution still answers Salesforce. -/
theorem unknown_routed_adapter_value_error_witness :
    (∃ msg, get_adapter default_adapters
        (update_routing_configuration default_routing
          (fun k => if k = "lead" then some "dynamics" else none))
        (InternalContact.mk "C42" "John Smith" "john@acme.com" "0123456789"
          "lead" 1 2 none none none none none).contact = Except.error msg) ∧
    get_external_system
        (update_routing_configuration default_routing
          (fun k => if k = "lead" then some "dynamics" else none))
        (InternalContact.mk "C42" "John Smith" "john@acme.com" "0123456789"
          "lead" 1 2 none none none none none).contact = ExternalSystem.salesforce ∧
    (∃ msg, transform_contact default_adapters
        (update_routing_configuration default_routing
          (fun k => if k = "lead" then some "dynamics" else none)) 0
        (InternalContact.mk "C42" "John Smith" "john@acme.com" "0123456789"
          "lead" 1 2 none none none none none) = Except.error msg) :=
  unknown_routed_adapter_value_error
    (update_routing_configuration default_routing
      (fun k => if k = "lead" then some "dynamics" else none)) 0
    (InternalContact.mk "C42" "John Smith" "john@acme.com" "0123456789"
      "lead" 1 2 none none none none none) "dynamics" rfl (by decide) rfl

/-- A non-empty string has positive length. -/
theorem one_le_length_of_ne_empty {s : String} (h : s ≠ "") : 1 ≤ s.length := by
  cases s with
  | mk data =>
      cases data with
      | nil => exact absurd rfl h
      | cons c cs => simp [String.length]

/-- Introduction rule for the InternalContact validation conjunction. -/
theorem internal_checks_intro
    {name email phone contact : String}
    {company title department address notes : Option String}
    (h1 : 1 ≤ name.length) (h2 : name.length ≤ 255) (h3 : pyStrip name ≠ "")
    (h4 : isValidEmail email = true)
    (h5 : 10 ≤ phone.length) (h6 : phone.length ≤ 20) (h7 : 10 ≤ digitCount phone)
    (h8 : contactTypeLiterals.contains contact = true)
    (h9 : optLenLe company 255 = true) (h10 : optLenLe title 255 = true)
    (h11 : optLenLe department 255 = true) (h12 : optLenLe address 500 = true)
    (h13 : optLenLe notes 1000 = true) :
    InternalContact.checks name email phone contact company title department
      address notes = true := by
  unfold InternalContact.checks
  simp only [Bool.and_eq_true, decide_eq_true_eq, and_assoc]
  exact ⟨h1, h2, h3, h4, h5, h6, h7, h8, h9, h10, h11, h12, h13⟩

/-- Elimination rule for the InternalContact validation conjunction. -/
theorem internal_checks_elim
    {name email phone contact : String}
    {company title department address notes : Option String}
    (h : InternalContact.checks name email phone contact company title
      department address notes = true) :
    1 ≤ name.length ∧ name.length ≤ 255 ∧ pyStrip name ≠ "" ∧
    isValidEmail email = true ∧
    10 ≤ phone.length ∧ phone.length ≤ 20 ∧ 10 ≤ digitCount phone ∧
    contactTypeLiterals.contains contact = true ∧
    optLenLe company 255 = true ∧ optLenLe title 255 = true ∧
    optLenLe department 255 = true ∧ optLenLe address 500 = true ∧
    optLenLe notes 1000 = true := by
  unfold InternalContact.checks at h
  simpa only [Bool.and_eq_true, decide_eq_true_eq, and_assoc] using h

/-- Introduction rule for the SalesforceContact validation conjunction. -/
theorem sf_checks_intro
    {FirstName LastName Email Phone LeadSource Status Type' : String}
    {Company Title Department Description AccountId ContactTypeC InternalIdC : Option String}
    (h1 : 1 ≤ FirstName.length) (h2 : FirstName.length ≤ 40) (h3 : pyStrip FirstName ≠ "")
    (h4 : 1 ≤ LastName.length) (h5 : LastName.length ≤ 80) (h6 : pyStrip LastName ≠ "")
    (h7 : isValidEmail Email = true)
    (h8 : 10 ≤ Phone.length) (h9 : Phone.length ≤ 40) (h10 : 10 ≤ digitCount Phone)
    (h11 : LeadSource.length ≤ 255) (h12 : Status.length ≤ 255) (h13 : Type'.length ≤ 255)
    (h14 : optLenLe Company 255 = true) (h15 : optLenLe Title 128 = true)
    (h16 : optLenLe Department 80 = true) (h17 : optLenLe Description 32000 = true)
    (h18 : optLenLe AccountId 18 = true) (h19 : optLenLe ContactTypeC 255 = true)
    (h20 : optLenLe InternalIdC 255 = true) :
    SalesforceContact.checks FirstName LastName Email Phone LeadSource Status
      Type' Company Title Department Description AccountId ContactTypeC
      InternalIdC = true := by
  unfold SalesforceContact.checks
  simp only [Bool.and_eq_true, decide_eq_true_eq, and_assoc]
  exact ⟨h1, h2, h3, h4, h5, h6, h7, h8, h9, h10, h11, h12, h13, h14, h15,
         h16, h17, h18, h19, h20⟩

/-- Introduction rule for the HubSpotContactProperties validation
conjunction. -/
theorem hs_checks_intro
    {firstname lastname email phone lifecyclestage hs_lead_status : String}
    {company jobtitle department address hs_analytics_source
     hs_analytics_source_data_1 customer_type account_id relationship_type
     internal_id : Option String}
    (h1 : 1 ≤ firstname.length) (h2 : firstname.length ≤ 255) (h3 : pyStrip firstname ≠ "")
    (h4 : 1 ≤ lastname.length) (h5 : lastname.length ≤ 255) (h6 : pyStrip lastname ≠ "")
    (h7 : isValidEmail email = true)
    (h8 : 10 ≤ phone.length) (h9 : phone.length ≤ 20) (h10 : 10 ≤ digitCount phone)
    (h11 : lifecyclestage.length ≤ 255) (h12 : hs_lead_status.length ≤ 255)
    (h13 : optLenLe company 255 = true) (h14 : optLenLe jobtitle 255 = true)
    (h15 : optLenLe department 255 = true) (h16 : optLenLe address 500 = true)
    (h17 : optLenLe hs_analytics_source 255 = true)
    (h18 : optLenLe hs_analytics_source_data_1 255 = true)
    (h19 : optLenLe customer_type 255 = true) (h20 : optLenLe account_id 255 = true)
    (h21 : optLenLe relationship_type 255 = true) (h22 : optLenLe internal_id 255 = true) :
    HubSpotContactProperties.checks firstname lastname email phone
      lifecyclestage hs_lead_status company jobtitle department address
      hs_analytics_source hs_analytics_source_data_1 customer_type account_id
      relationship_type internal_id = true := by
  unfold HubSpotContactProperties.checks
  simp only [Bool.and_eq_true, decide_eq_true_eq, and_assoc]
  exact ⟨h1, h2, h3, h4, h5, h6, h7, h8, h9, h10, h11, h12, h13, h14, h15,
         h16, h17, h18, h19, h20, h21, h22⟩

/-- What holds of every valid canonical contact: the pydantic checks pass on
its own fields and its stored name is already stripped. -/
theorem valid_facts {c : InternalContact} (hv : c.valid) :
    pyStrip c.name = c.name ∧
    (1 ≤ c.name.length ∧ c.name.length ≤ 255 ∧ pyStrip c.name ≠ "" ∧
     isValidEmail c.email = true ∧
     10 ≤ c.phone.length ∧ c.phone.length ≤ 20 ∧ 10 ≤ digitCount c.phone ∧
     contactTypeLiterals.contains c.contact = true ∧
     optLenLe c.company 255 = true ∧ optLenLe c.title 255 = true ∧
     optLenLe c.department 255 = true ∧ optLenLe c.address 500 = true ∧
     optLenLe c.notes 1000 = true) := by
  unfold InternalContact.valid InternalContact.make at hv
  split at hv
  case isTrue hcond =>
      refine ⟨?_, internal_checks_elim hcond⟩
      rcases c with ⟨id, name, email, phone, contact, ca, ua, co, ti, de, ad, no⟩
      simpa [InternalContact.mk.injEq] using hv
  case isFalse hcond =>
      exact absurd hv (by simp)

/-- Salesforce leg of the identity-field round trip: under the canonical
validity of the contact, a cleanly splitting name, and the vendor field
limits, transform_to_external produces exactly the expected vendor record and
transform_from_external maps it back, restoring id, name, email, phone and
both timestamps. -/
theorem sf_adapter_roundtrip_aux (c : InternalContact) (hv : c.valid)
    (hcat : c.contact = "lead" ∨ c.contact = "prospect" ∨ c.contact = "employee")
    (hfne : extract_first_name c.name ≠ "")
    (hlne : extract_last_name c.name ≠ "")
    (hfns : pyStrip (extract_first_name c.name) = extract_first_name c.name)
    (hlns : pyStrip (extract_last_name c.name) = extract_last_name c.name)
    (hjoin : pyStrip (extract_first_name c.name ++ " " ++ extract_last_name c.name) = c.name)
    (hfn40 : (extract_first_name c.name).length ≤ 40)
    (hln80 : (extract_last_name c.name).length ≤ 80)
    (hid : c.id.length ≤ 255)
    (hcomp : (pyOrStr c.company (extract_company_from_email c.email)).length ≤ 255)
    (hti : (pyOrStr c.title (map_contact_type_to_title c.contact)).length ≤ 128)
    (hde : (pyOrStr c.department (map_contact_type_to_department c.contact)).length ≤ 80) :
    SalesforceAdapter.transform_to_external c = Except.ok
      ⟨c.id, extract_first_name c.name, extract_last_name c.name, c.email, c.phone,
       map_contact_type_to_lead_source c.contact, map_contact_type_to_status c.contact,
       map_contact_type_to_type c.contact, c.created_at, c.updated_at,
       some (pyOrStr c.company (extract_company_from_email c.email)),
       some (pyOrStr c.title (map_contact_type_to_title c.contact)),
       some (pyOrStr c.department (map_contact_type_to_department c.contact)),
       some (salesforceDescription c.contact), none, some c.contact, some c.id⟩ ∧
    SalesforceAdapter.transform_from_external
      ⟨c.id, extract_first_name c.name, extract_last_name c.name, c.email, c.phone,
       map_contact_type_to_lead_source c.contact, map_contact_type_to_status c.contact,
       map_contact_type_to_type c.contact, c.created_at, c.updated_at,
       some (pyOrStr c.company (extract_company_from_email c.email)),
       some (pyOrStr c.title (map_contact_type_to_title c.contact)),
       some (pyOrStr c.department (map_contact_type_to_department c.contact)),
       some (salesforceDescription c.contact), none, some c.contact, some c.id⟩ =
    Except.ok
      ⟨c.id, c.name, c.email, c.phone,
       map_salesforce_type_to_contact_type (map_contact_type_to_type c.contact)
         (map_contact_type_to_lead_source c.contact),
       c.created_at, c.updated_at,
       some (pyOrStr c.company (extract_company_from_email c.email)),
       some (pyOrStr c.title (map_contact_type_to_title c.contact)),
       some (pyOrStr c.department (map_contact_type_to_department c.contact)),
       none, none⟩ := by
  obtain ⟨hstrip, hn1, hn255, hnne, hemail, hp10, hp20, hpd, hctin, hco, hti2,
          hde2, had, hno⟩ := valid_facts hv
  have hls : (map_contact_type_to_lead_source c.contact).length ≤ 255 := by
    rcases hcat with h | h | h <;> rw [h] <;> decide
  have hst : (map_contact_type_to_status c.contact).length ≤ 255 := by
    rcases hcat with h | h | h <;> rw [h] <;> decide
  have hty : (map_contact_type_to_type c.contact).length ≤ 255 := by
    rcases hcat with h | h | h <;> rw [h] <;> decide
  have hdesc : optLenLe (some (salesforceDescription c.contact)) 32000 = true := by
    rcases hcat with h | h | h <;> rw [h] <;> decide
  have hctc : optLenLe (some c.contact) 255 = true := by
    rcases hcat with h | h | h <;> rw [h] <;> decide
  have hchk : SalesforceContact.checks (extract_first_name c.name)
      (extract_last_name c.name) c.email c.phone
      (map_contact_type_to_lead_source c.contact)
      (map_contact_type_to_status c.contact) (map_contact_type_to_type c.contact)
      (some (pyOrStr c.company (extract_company_from_email c.email)))
      (some (pyOrStr c.title (map_contact_type_to_title c.contact)))
      (some (pyOrStr c.department (map_contact_type_to_department c.contact)))
      (some (salesforceDescription c.contact)) none (some c.contact)
      (some c.id) = true :=
    sf_checks_intro
      (one_le_length_of_ne_empty hfne) hfn40 (by rw [hfns]; exact hfne)
      (one_le_length_of_ne_empty hlne) hln80 (by rw [hlns]; exact hlne)
      hemail hp10 (by omega) hpd hls hst hty
      (by simpa [optLenLe] using hcomp) (by simpa [optLenLe] using hti)
      (by simpa [optLenLe] using hde) hdesc rfl hctc
      (by simpa [optLenLe] using hid)
  have hmk : SalesforceContact.make c.id (extract_first_name c.name)
      (extract_last_name c.name) c.email c.phone
      (map_contact_type_to_lead_source c.contact)
      (map_contact_type_to_status c.contact) (map_contact_type_to_type c.contact)
      c.created_at c.updated_at
      (some (pyOrStr c.company (extract_company_from_email c.email)))
      (some (pyOrStr c.title (map_contact_type_to_title c.contact)))
      (some (pyOrStr c.department (map_contact_type_to_department c.contact)))
      (some (salesforceDescription c.contact)) none (some c.contact)
      (some c.id) = Except.ok
      ⟨c.id, extract_first_name c.name, extract_last_name c.name, c.email, c.phone,
       map_contact_type_to_lead_source c.contact, map_contact_type_to_status c.contact,
       map_contact_type_to_type c.contact, c.created_at, c.updated_at,
       some (pyOrStr c.company (extract_company_from_email c.email)),
       some (pyOrStr c.title (map_contact_type_to_title c.contact)),
       some (pyOrStr c.department (map_contact_type_to_department c.contact)),
       some (salesforceDescription c.contact), none, some c.contact, some c.id⟩ := by
    unfold SalesforceContact.make
    rw [hchk]
    simp [hfns, hlns]
  constructor
  · unfold SalesforceAdapter.transform_to_external
    rw [hmk]
    rcases hcat with h | h | h <;> rw [h] <;> rfl
  · have hct2lit : contactTypeLiterals.contains
        (map_salesforce_type_to_contact_type (map_contact_type_to_type c.contact)
          (map_contact_type_to_lead_source c.contact)) = true := by
      rcases hcat with h | h | h <;> rw [h] <;> decide
    have hchk2 : InternalContact.checks c.name c.email c.phone
        (map_salesforce_type_to_contact_type (map_contact_type_to_type c.contact)
          (map_contact_type_to_lead_source c.contact))
        (some (pyOrStr c.company (extract_company_from_email c.email)))
        (some (pyOrStr c.title (map_contact_type_to_title c.contact)))
        (some (pyOrStr c.department (map_contact_type_to_department c.contact)))
        none none = true :=
      internal_checks_intro hn1 hn255 hnne hemail hp10 hp20 hpd hct2lit
        (by simpa [optLenLe] using hcomp)
        (by simp only [optLenLe, decide_eq_true_eq]; omega)
        (by simp only [optLenLe, decide_eq_true_eq]; omega) rfl rfl
    unfold SalesforceAdapter.transform_from_external
    dsimp only
    rw [hmk]
    dsimp only
    rw [hjoin]
    unfold InternalContact.make
    rw [hchk2]
    simp [hstrip]

/-- HubSpot leg of the identity-field round trip, analogous to the
Salesforce one.  Note the category itself comes back as "customer" for all
three HubSpot-routed categories, but the six identity fields are restored. -/
theorem hs_adapter_roundtrip_aux (c : InternalContact) (hv : c.valid)
    (hcat : c.contact = "customer" ∨ c.contact = "vendor" ∨ c.contact = "partner")
    (hfne : extract_first_name c.name ≠ "")
    (hlne : extract_last_name c.name ≠ "")
    (hfns : pyStrip (extract_first_name c.name) = extract_first_name c.name)
    (hlns : pyStrip (extract_last_name c.name) = extract_last_name c.name)
    (hjoin : pyStrip (extract_first_name c.name ++ " " ++ extract_last_name c.name) = c.name)
    (hfn255 : (extract_first_name c.name).length ≤ 255)
    (hln255 : (extract_last_name c.name).length ≤ 255)
    (hid : c.id.length ≤ 255)
    (hacct : ("ACC_" ++ c.id).length ≤ 255)
    (hcomp : (pyOrStr c.company (extract_company_from_email c.email)).length ≤ 255)
    (hti : (pyOrStr c.title (map_contact_type_to_title c.contact)).length ≤ 255)
    (hde : (pyOrStr c.department (map_contact_type_to_department c.contact)).length ≤ 255) :
    HubSpotAdapter.transform_to_external c = Except.ok
      ⟨c.id,
       ⟨extract_first_name c.name, extract_last_name c.name, c.email, c.phone,
        map_contact_type_to_lifecycle_stage c.contact,
        map_contact_type_to_lead_status c.contact, c.created_at, c.updated_at,
        some (pyOrStr c.company (extract_company_from_email c.email)),
        some (pyOrStr c.title (map_contact_type_to_title c.contact)),
        some (pyOrStr c.department (map_contact_type_to_department c.contact)),
        c.address, some "SYSTEM_SYNC", some c.contact, some c.contact,
        some ("ACC_" ++ c.id),
        some (map_contact_type_to_relationship_type c.contact), some c.id⟩⟩ ∧
    HubSpotAdapter.transform_from_external
      ⟨c.id,
       ⟨extract_first_name c.name, extract_last_name c.name, c.email, c.phone,
        map_contact_type_to_lifecycle_stage c.contact,
        map_contact_type_to_lead_status c.contact, c.created_at, c.updated_at,
        some (pyOrStr c.company (extract_company_from_email c.email)),
        some (pyOrStr c.title (map_contact_type_to_title c.contact)),
        some (pyOrStr c.department (map_contact_type_to_department c.contact)),
        c.address, some "SYSTEM_SYNC", some c.contact, some c.contact,
        some ("ACC_" ++ c.id),
        some (map_contact_type_to_relationship_type c.contact), some c.id⟩⟩ =
    Except.ok
      ⟨c.id, c.name, c.email, c.phone,
       map_hubspot_stage_to_contact_type
         (map_contact_type_to_lifecycle_stage c.contact)
         (map_contact_type_to_lead_status c.contact),
       c.created_at, c.updated_at,
       some (pyOrStr c.company (extract_company_from_email c.email)),
       some (pyOrStr c.title (map_contact_type_to_title c.contact)),
       some (pyOrStr c.department (map_contact_type_to_department c.contact)),
       c.address, none⟩ := by
  obtain ⟨hstrip, hn1, hn255, hnne, hemail, hp10, hp20, hpd, hctin, hco, hti2,
          hde2, had, hno⟩ := valid_facts hv
  have hlc : (map_contact_type_to_lifecycle_stage c.contact).length ≤ 255 := by
    rcases hcat with h | h | h <;> rw [h] <;> decide
  have hlst : (map_contact_type_to_lead_status c.contact).length ≤ 255 := by
    rcases hcat with h | h | h <;> rw [h] <;> decide
  have hctc : optLenLe (some c.contact) 255 = true := by
    rcases hcat with h | h | h <;> rw [h] <;> decide
  have hrel : optLenLe (some (map_contact_type_to_relationship_type c.contact)) 255 = true := by
    rcases hcat with h | h | h <;> rw [h] <;> decide
  have hchk : HubSpotContactProperties.checks (extract_first_name c.name)
      (extract_last_name c.name) c.email c.phone
      (map_contact_type_to_lifecycle_stage c.contact)
      (map_contact_type_to_lead_status c.contact)
      (some (pyOrStr c.company (extract_company_from_email c.email)))
      (some (pyOrStr c.title (map_contact_type_to_title c.contact)))
      (some (pyOrStr c.department (map_contact_type_to_department c.contact)))
      c.address (some "SYSTEM_SYNC") (some c.contact) (some c.contact)
      (some ("ACC_" ++ c.id))
      (some (map_contact_type_to_relationship_type c.contact)) (some c.id) = true :=
    hs_checks_intro
      (one_le_length_of_ne_empty hfne) hfn255 (by rw [hfns]; exact hfne)
      (one_le_length_of_ne_empty hlne) hln255 (by rw [hlns]; exact hlne)
      hemail hp10 hp20 hpd hlc hlst
      (by simpa [optLenLe] using hcomp) (by simpa [optLenLe] using hti)
      (by simpa [optLenLe] using hde) had rfl hctc hctc
      (by simpa [optLenLe] using hacct) hrel
      (by simpa [optLenLe] using hid)
  have hmk : HubSpotContactProperties.make (extract_first_name c.name)
      (extract_last_name c.name) c.email c.phone
      (map_contact_type_to_lifecycle_stage c.contact)
      (map_contact_type_to_lead_status c.contact) c.created_at c.updated_at
      (some (pyOrStr c.company (extract_company_from_email c.email)))
      (some (pyOrStr c.title (map_contact_type_to_title c.contact)))
      (some (pyOrStr c.department (map_contact_type_to_department c.contact)))
      c.address (some "SYSTEM_SYNC") (some c.contact) (some c.contact)
      (some ("ACC_" ++ c.id))
      (some (map_contact_type_to_relationship_type c.contact)) (some c.id) =
      Except.ok
      ⟨extract_first_name c.name, extract_last_name c.name, c.email, c.phone,
       map_contact_type_to_lifecycle_stage c.contact,
       map_contact_type_to_lead_status c.contact, c.created_at, c.updated_at,
       some (pyOrStr c.company (extract_company_from_email c.email)),
       some (pyOrStr c.title (map_contact_type_to_title c.contact)),
       some (pyOrStr c.department (map_contact_type_to_department c.contact)),
       c.address, some "SYSTEM_SYNC", some c.contact, some c.contact,
       some ("ACC_" ++ c.id),
       some (map_contact_type_to_relationship_type c.contact), some c.id⟩ := by
    unfold HubSpotContactProperties.make
    rw [hchk]
    simp [hfns, hlns]
  constructor
  · unfold HubSpotAdapter.transform_to_external
    rw [hmk]
  · have hct2lit : contactTypeLiterals.contains
        (map_hubspot_stage_to_contact_type
          (map_contact_type_to_lifecycle_stage c.contact)
          (map_contact_type_to_lead_status c.contact)) = true := by
      rcases hcat with h | h | h <;> rw [h] <;> decide
    have hchk2 : InternalContact.checks c.name c.email c.phone
        (map_hubspot_stage_to_contact_type
          (map_contact_type_to_lifecycle_stage c.contact)
          (map_contact_type_to_lead_status c.contact))
        (some (pyOrStr c.company (extract_company_from_email c.email)))
        (some (pyOrStr c.title (map_contact_type_to_title c.contact)))
        (some (pyOrStr c.department (map_contact_type_to_department c.contact)))
        c.address none = true :=
      internal_checks_intro hn1 hn255 hnne hemail hp10 hp20 hpd hct2lit
        (by simpa [optLenLe] using hcomp) (by simpa [optLenLe] using hti)
        (by simpa [optLenLe] using hde) had rfl
    unfold HubSpotAdapter.transform_from_external
    dsimp only
    rw [hmk]
    dsimp only
    rw [hjoin]
    unfold InternalContact.make
    rw [hchk2]
    simp [hstrip]

/-- A contact category accepted by the pydantic literal is one of the six
enumerated strings. -/
theorem contact_cases {ct : String} (h : contactTypeLiterals.contains ct = true) :
    ct = "lead" ∨ ct = "customer" ∨ ct = "prospect" ∨ ct = "vendor" ∨
    ct = "partner" ∨ ct = "employee" := by
  simp [contactTypeLiterals] at h
  tauto


/-- C1 as amended: for every valid canonical contact whose name splits into a
non-empty first and last part that re-join to the original name, and whose
derived vendor fields fit the vendor schema limits, transforming via the
adapter its category routes to and transforming back restores id, name,
email, phone, created_at and updated_at exactly. -/
theorem roundtrip_restores_identity_fields (now : Nat) (c : InternalContact)
    (hv : c.valid)
    (hfne : extract_first_name c.name ≠ "")
    (hlne : extract_last_name c.name ≠ "")
    (hfns : pyStrip (extract_first_name c.name) = extract_first_name c.name)
    (hlns : pyStrip (extract_last_name c.name) = extract_last_name c.name)
    (hjoin : pyStrip (extract_first_name c.name ++ " " ++ extract_last_name c.name) = c.name)
    (hfn40 : (extract_first_name c.name).length ≤ 40)
    (hln80 : (extract_last_name c.name).length ≤ 80)
    (hid : c.id.length ≤ 255)
    (hacct : ("ACC_" ++ c.id).length ≤ 255)
    (hcomp : (pyOrStr c.company (extract_company_from_email c.email)).length ≤ 255)
    (hti : (pyOrStr c.title (map_contact_type_to_title c.contact)).length ≤ 128)
    (hde : (pyOrStr c.department (map_contact_type_to_department c.contact)).length ≤ 80) :
    ∃ c2, adapter_roundtrip default_adapters default_routing now c = Except.ok c2 ∧
      c2.id = c.id ∧ c2.name = c.name ∧ c2.email = c.email ∧ c2.phone = c.phone ∧
      c2.created_at = c.created_at ∧ c2.updated_at = c.updated_at := by
  obtain ⟨hstrip, hn1, hn255, hnne, hemail, hp10, hp20, hpd, hctin, hrest⟩ :=
    valid_facts hv
  rcases contact_cases hctin with h | h | h | h | h | h
  · obtain ⟨hto, hfrom⟩ := sf_adapter_roundtrip_aux c hv (Or.inl h) hfne hlne
      hfns hlns hjoin hfn40 hln80 hid hcomp hti hde
    apply Exists.intro
    constructor
    · unfold adapter_roundtrip transform_contact AdapterKind.run_transform
      rw [h, show get_adapter default_adapters default_routing "lead" =
        Except.ok AdapterKind.salesforce from rfl]
      dsimp only
      rw [hto]
      dsimp only
      rw [hfrom]
    · exact ⟨rfl, rfl, rfl, rfl, rfl, rfl⟩
  · obtain ⟨hto, hfrom⟩ := hs_adapter_roundtrip_aux c hv (Or.inl h) hfne hlne
      hfns hlns hjoin (by omega) (by omega) hid hacct hcomp (by omega) (by omega)
    apply Exists.intro
    constructor
    · unfold adapter_roundtrip transform_contact AdapterKind.run_transform
      rw [h, show get_adapter default_adapters default_routing "customer" =
        Except.ok AdapterKind.hubspot from rfl]
      dsimp only
      rw [hto]
      dsimp only
      rw [hfrom]
    · exact ⟨rfl, rfl, rfl, rfl, rfl, rfl⟩
  · obtain ⟨hto, hfrom⟩ := sf_adapter_roundtrip_aux c hv (Or.inr (Or.inl h)) hfne hlne
      hfns hlns hjoin hfn40 hln80 hid hcomp hti hde
    apply Exists.intro
    constructor
    · unfold adapter_roundtrip transform_contact AdapterKind.run_transform
      rw [h, show get_adapter default_adapters default_routing "prospect" =
        Except.ok AdapterKind.salesforce from rfl]
      dsimp only
      rw [hto]
      dsimp only
      rw [hfrom]
    · exact ⟨rfl, rfl, rfl, rfl, rfl, rfl⟩
  · obtain ⟨hto, hfrom⟩ := hs_adapter_roundtrip_aux c hv (Or.inr (Or.inl h)) hfne hlne
      hfns hlns hjoin (by omega) (by omega) hid hacct hcomp (by omega) (by omega)
    apply Exists.intro
    constructor
    · unfold adapter_roundtrip transform_contact AdapterKind.run_transform
      rw [h, show get_adapter default_adapters default_routing "vendor" =
        Except.ok AdapterKind.hubspot from rfl]
      dsimp only
      rw [hto]
      dsimp only
      rw [hfrom]
    · exact ⟨rfl, rfl, rfl, rfl, rfl, rfl⟩
  · obtain ⟨hto, hfrom⟩ := hs_adapter_roundtrip_aux c hv (Or.inr (Or.inr h)) hfne hlne
      hfns hlns hjoin (by omega) (by omega) hid hacct hcomp (by omega) (by omega)
    apply Exists.intro
    constructor
    · unfold adapter_roundtrip transform_contact AdapterKind.run_transform
      rw [h, show get_adapter default_adapters default_routing "partner" =
        Except.ok AdapterKind.hubspot from rfl]
      dsimp only
      rw [hto]
      dsimp only
      rw [hfrom]
    · exact ⟨rfl, rfl, rfl, rfl, rfl, rfl⟩
  · obtain ⟨hto, hfrom⟩ := sf_adapter_roundtrip_aux c hv (Or.inr (Or.inr h)) hfne hlne
      hfns hlns hjoin hfn40 hln80 hid hcomp hti hde
    apply Exists.intro
    constructor
    · unfold adapter_roundtrip transform_contact AdapterKind.run_transform
      rw [h, show get_adapter default_adapters default_routing "employee" =
        Except.ok AdapterKind.salesforce from rfl]
      dsimp only
      rw [hto]
      dsimp only
      rw [hfrom]
    · exact ⟨rfl, rfl, rfl, rfl, rfl, rfl⟩

/-- C1 counterexample: a perfectly valid canonical contact whose name is a
single token ("Madonna", category lead).  Its round trip does not restore
anything — the Salesforce adapter's transform itself rejects the record,
because the derived LastName is empty and the vendor schema requires a
non-empty one. -/
theorem roundtrip_fails_for_single_token_name :
    (InternalContact.mk "C7" "Madonna" "madonna@music.com" "0123456789" "lead"
      1 2 none none none none none).valid ∧
    adapter_roundtrip default_adapters default_routing 0
      (InternalContact.mk "C7" "Madonna" "madonna@music.com" "0123456789" "lead"
        1 2 none none none none none) =
      Except.error "SalesforceContact validation error" :=
  ⟨by decide, by decide⟩

/-- Witness for the amended C1 at a concrete two-token contact routed to
Salesforce. -/
theorem roundtrip_restores_identity_fields_witness :
    ∃ c2, adapter_roundtrip default_adapters default_routing 5
      (InternalContact.mk "C42" "John Smith" "john@acme.com" "0123456789" "lead"
        1 2 none none none none none) = Except.ok c2 ∧
      c2.id = "C42" ∧ c2.name = "John Smith" ∧ c2.email = "john@acme.com" ∧
      c2.phone = "0123456789" ∧ c2.created_at = 1 ∧ c2.updated_at = 2 :=
  roundtrip_restores_identity_fields 5
    (InternalContact.mk "C42" "John Smith" "john@acme.com" "0123456789" "lead"
      1 2 none none none none none)
    (by decide) (by decide) (by decide) (by decide) (by decide) (by decide)
    (by decide) (by decide) (by decide) (by decide) (by decide) (by decide)
    (by decide)
